import Mathlib

/-!
Verification of the R2R repository-loader ingestion pipeline.

This file gives a shallow embedding, in Lean 4, of the core of the
`upload_repo` package:

* `config.py`       — the run-level constants;
* `repo_loader.py`  — `generate_document_id` and the upload loop of
  `RepositoryLoader.load_repository`;
* `r2r_client.py`   — `R2RClient._retry_request` with its status-code
  driven retry policy;
* `file_filter.py`  — `FileFilter.filter_files` with its ignore-pattern,
  extension and size checks.

Machine integers are modelled as `Nat` with explicit `% 2 ^ 32`
(resp. `% 2 ^ 128`) reductions where the Python code relies on
fixed-width arithmetic (inside the SHA-1 based UUID5 computation).
Exceptions are modelled with `Except`; the single Python exception class
`R2RClientError` carries only its message string, so errors are embedded
as that message string.
-/

namespace UploadRepo

/-! ## Configuration constants (`config.py`) -/

def UPLOAD_DELAY_MS : Nat := 300

def API_RETRY_ATTEMPTS : Nat := 3

def API_RETRY_BACKOFF : Nat := 2

def MAX_FILE_SIZE_MB : Nat := 20

def MAX_FILE_SIZE_BYTES : Nat := MAX_FILE_SIZE_MB * 1024 * 1024

/-! ## Identity generator (`repo_loader.generate_document_id`)

The Python function is
`str(uuid.uuid5(uuid.NAMESPACE_DNS, f"{repo_url}:{file_path}"))`.
`uuid.uuid5` is `UUID(bytes=sha1(namespace.bytes + name.encode("utf-8")).digest()[:16], version=5)`;
the `UUID` constructor stores the 16 bytes as a 128-bit big-endian
integer, clears and sets the variant and version bit fields on that
integer, and `str` renders it as 32 zero-padded lowercase hex digits with
dashes after digits 8, 12, 16 and 20.  The embedding below follows that
computation byte for byte. -/

/-- UTF-8 encoding of one character (code point to 1–4 bytes). -/
def utf8Char (c : Char) : List Nat :=
  let n := c.toNat
  if n < 0x80 then [n]
  else if n < 0x800 then
    [0xC0 ||| (n >>> 6), 0x80 ||| (n &&& 0x3F)]
  else if n < 0x10000 then
    [0xE0 ||| (n >>> 12), 0x80 ||| ((n >>> 6) &&& 0x3F), 0x80 ||| (n &&& 0x3F)]
  else
    [0xF0 ||| (n >>> 18), 0x80 ||| ((n >>> 12) &&& 0x3F),
     0x80 ||| ((n >>> 6) &&& 0x3F), 0x80 ||| (n &&& 0x3F)]

/-- UTF-8 encoding of a string, as Python's `str.encode("utf-8")`. -/
def utf8Encode (s : String) : List Nat :=
  s.data.foldr (fun c acc => utf8Char c ++ acc) []

/-- Left-rotation of a 32-bit word. -/
def rotl (n x : Nat) : Nat :=
  ((x <<< n) ||| (x >>> (32 - n))) % 2 ^ 32

/-- The SHA-1 round function (per round index). -/
def sha1F (i b c d : Nat) : Nat :=
  if i < 20 then (b &&& c) ||| (((2 ^ 32 - 1) ^^^ b) &&& d)
  else if i < 40 then b ^^^ c ^^^ d
  else if i < 60 then (b &&& c) ||| (b &&& d) ||| (c &&& d)
  else b ^^^ c ^^^ d

/-- The SHA-1 round constants. -/
def sha1K (i : Nat) : Nat :=
  if i < 20 then 0x5A827999
  else if i < 40 then 0x6ED9EBA1
  else if i < 60 then 0x8F1BBCDC
  else 0xCA62C1D6

/-- Big-endian 32-bit word number `i` of a 64-byte block. -/
def blockWord (block : List Nat) (i : Nat) : Nat :=
  block.getD (4 * i) 0 * 2 ^ 24 + block.getD (4 * i + 1) 0 * 2 ^ 16 +
    block.getD (4 * i + 2) 0 * 2 ^ 8 + block.getD (4 * i + 3) 0

/-- The 80-entry SHA-1 message schedule of one block. -/
def sha1Schedule (block : List Nat) : List Nat :=
  (List.range 80).foldl
    (fun w i =>
      if i < 16 then w ++ [blockWord block i]
      else
        w ++ [rotl 1 (w.getD (i - 3) 0 ^^^ w.getD (i - 8) 0 ^^^
                      w.getD (i - 14) 0 ^^^ w.getD (i - 16) 0)])
    []

/-- The five 32-bit chaining words of SHA-1. -/
structure Sha1State where
  h0 : Nat
  h1 : Nat
  h2 : Nat
  h3 : Nat
  h4 : Nat

/-- One SHA-1 compression step over a 64-byte block. -/
def sha1Compress (st : Sha1State) (block : List Nat) : Sha1State :=
  let w := sha1Schedule block
  let step := fun (acc : Nat × Nat × Nat × Nat × Nat) (i : Nat) =>
    let (a, b, c, d, e) := acc
    let temp := (rotl 5 a + sha1F i b c d + e + sha1K i + w.getD i 0) % 2 ^ 32
    (temp, a, rotl 30 b, c, d)
  let (a, b, c, d, e) :=
    (List.range 80).foldl step (st.h0, st.h1, st.h2, st.h3, st.h4)
  ⟨(st.h0 + a) % 2 ^ 32, (st.h1 + b) % 2 ^ 32, (st.h2 + c) % 2 ^ 32,
   (st.h3 + d) % 2 ^ 32, (st.h4 + e) % 2 ^ 32⟩

/-- Run the compression over the padded message, 64 bytes at a time. -/
def sha1Blocks (st : Sha1State) (msg : List Nat) : Sha1State :=
  if h : msg = [] then st
  else sha1Blocks (sha1Compress st (msg.take 64)) (msg.drop 64)
termination_by msg.length
decreasing_by
  simp only [List.length_drop]
  exact Nat.sub_lt (List.length_pos.mpr h) (by decide)

/-- Big-endian bytes of one 32-bit word. -/
def wordBytes (w : Nat) : List Nat :=
  [w / 2 ^ 24 % 256, w / 2 ^ 16 % 256, w / 2 ^ 8 % 256, w % 256]

/-- SHA-1 of a byte sequence: standard padding, then compression;
the digest is the 20 bytes of the five chaining words. -/
def sha1 (msg : List Nat) : List Nat :=
  let bitLen := msg.length * 8
  let padZeros := (64 + 56 - ((msg.length + 1) % 64)) % 64
  let lenBytes := (List.range 8).map (fun i => bitLen / 2 ^ (8 * (7 - i)) % 256)
  let padded := msg ++ [0x80] ++ List.replicate padZeros 0 ++ lenBytes
  let fin := sha1Blocks ⟨0x67452301, 0xEFCDAB89, 0x98BADCFE, 0x10325476, 0xC3D2E1F0⟩ padded
  wordBytes fin.h0 ++ wordBytes fin.h1 ++ wordBytes fin.h2 ++
    wordBytes fin.h3 ++ wordBytes fin.h4

/-- Big-endian integer value of a byte sequence (`int.from_bytes`). -/
def bytesToNatBE (l : List Nat) : Nat :=
  l.foldl (fun a b => a * 256 + b) 0

/-- The 16 bytes of `uuid.NAMESPACE_DNS`
(6ba7b810-9dad-11d1-80b4-00c04fd430c8). -/
def NAMESPACE_DNS : List Nat :=
  [0x6b, 0xa7, 0xb8, 0x10, 0x9d, 0xad, 0x11, 0xd1,
   0x80, 0xb4, 0x00, 0xc0, 0x4f, 0xd4, 0x30, 0xc8]

/-- The 128-bit integer of `uuid.uuid5(NAMESPACE_DNS, name)`: SHA-1 of
namespace bytes plus name bytes, truncated to 16 bytes, with the RFC 4122
variant bits and the version-5 bits forced.  Python clears bits with
`int &= ~mask` on a nonnegative int below `2 ^ 128`, which is the same as
`&&&` with the mask's 128-bit complement. -/
def uuid5Int (nameBytes : List Nat) : Nat :=
  let digest := sha1 (NAMESPACE_DNS ++ nameBytes)
  let raw := bytesToNatBE (digest.take 16)
  let m128 := 2 ^ 128 - 1
  let v1 := raw &&& (m128 ^^^ (0xc000 <<< 48))
  let v2 := v1 ||| (0x8000 <<< 48)
  let v3 := v2 &&& (m128 ^^^ (0xf000 <<< 64))
  v3 ||| (5 <<< 76)

/-- Lowercase hex digit. -/
def hexChar (n : Nat) : Char :=
  if n < 10 then Char.ofNat (48 + n) else Char.ofNat (87 + n)

/-- `k` zero-padded lowercase hex digits of `n`, most significant first. -/
def hexDigitsAux : Nat → Nat → List Char
  | _, 0 => []
  | n, k + 1 => hexDigitsAux (n / 16) k ++ [hexChar (n % 16)]

/-- `str()` of a UUID from its 128-bit integer: 32 hex digits in
8-4-4-4-12 groups separated by dashes. -/
def uuidStr (n : Nat) : String :=
  let h := hexDigitsAux n 32
  String.mk (h.take 8 ++ '-' :: (h.drop 8).take 4 ++ '-' :: (h.drop 12).take 4 ++
    '-' :: (h.drop 16).take 4 ++ '-' :: h.drop 20)

/-- `unique_key = f"{repo_url}:{file_path}"`. -/
def uniqueKey (repo_url file_path : String) : String :=
  repo_url ++ ":" ++ file_path

/-- `generate_document_id` from `repo_loader.py`. -/
def generate_document_id (repo_url file_path : String) : String :=
  uuidStr (uuid5Int (utf8Encode (uniqueKey repo_url file_path)))

/-! ## File selector (`file_filter.py`)

`FileFilter.filter_files` walks `repo_path.rglob('*')` and classifies each
entry.  A filesystem entry is modelled by the attributes the code
inspects: its repository-relative path (the walk only yields paths under
the root), whether it is a directory, whether it is a symbolic link, its
`stat` size, and whether `stat` succeeds at all.  Pattern matching uses
Python's `fnmatch.fnmatch`, which on POSIX is a whole-string shell-glob
match (`*`, `?`, `[...]`, `[!...]`; a `[` without a closing `]` is a
literal). -/

/-- Split a character-class body into (lo, hi) ranges, with regex
semantics for `-` (literal when leading or trailing). -/
def classRanges : List Char → List (Char × Char)
  | [] => []
  | [c] => [(c, c)]
  | c1 :: '-' :: c2 :: rest => (c1, c2) :: classRanges rest
  | c :: rest => (c, c) :: classRanges rest

/-- Split a list at the first `]`, returning the part before it and the
part after it, or `none` when there is no `]`. -/
def splitAtRBracket : List Char → Option (List Char × List Char)
  | [] => none
  | ']' :: rest => some ([], rest)
  | c :: rest =>
    match splitAtRBracket rest with
    | none => none
    | some (before, after) => some (c :: before, after)

/-- Parse a `[...]` character class (the input starts right after `[`):
returns (negated, ranges, rest of the pattern) or `none` when the class
is unterminated.  As in `fnmatch.translate`, a leading `!` negates, and a
`]` right after `[` or `[!` is a literal member. -/
def parseClass (cs : List Char) : Option (Bool × List (Char × Char) × List Char) :=
  let (neg, cs1) := match cs with
    | '!' :: t => (true, t)
    | _ => (false, cs)
  match cs1 with
  | ']' :: t =>
    match splitAtRBracket t with
    | none => none
    | some (before, after) => some (neg, classRanges (']' :: before), after)
  | _ =>
    match splitAtRBracket cs1 with
    | none => none
    | some (before, after) => some (neg, classRanges before, after)

/-- Membership of a character in a list of ranges. -/
def inRanges (ranges : List (Char × Char)) (c : Char) : Bool :=
  ranges.any (fun r => r.1.toNat ≤ c.toNat && c.toNat ≤ r.2.toNat)

/-- Shell-glob matching of a whole string against a pattern, with fuel.
Every step consumes one fuel unit and strictly decreases the summed
length of pattern and string, so `fnmatch` below never exhausts it. -/
def globMatch (fuel : Nat) (p s : List Char) : Bool :=
  match fuel with
  | 0 => false
  | fuel + 1 =>
    match p with
    | [] => s.isEmpty
    | '*' :: pr =>
      globMatch fuel pr s ||
        (match s with
         | [] => false
         | _ :: sr => globMatch fuel p sr)
    | '?' :: pr =>
      match s with
      | [] => false
      | _ :: sr => globMatch fuel pr sr
    | '[' :: pr =>
      match parseClass pr with
      | some (neg, ranges, pRest) =>
        match s with
        | [] => false
        | c :: sr => (inRanges ranges c != neg) && globMatch fuel pRest sr
      | none =>
        match s with
        | [] => false
        | c :: sr => (c == '[') && globMatch fuel pr sr
    | ch :: pr =>
      match s with
      | [] => false
      | c :: sr => (c == ch) && globMatch fuel pr sr

/-- `fnmatch.fnmatch(name, pattern)` on a POSIX system. -/
def fnmatch (name pattern : String) : Bool :=
  globMatch (pattern.length + name.length + 1) pattern.data name.data

/-- Helper of `splitOnSlash`: accumulate the current (reversed) segment
until the next `/`. -/
def splitSlashAux : List Char → List Char → List String
  | [], acc => [String.mk acc.reverse]
  | '/' :: rest, acc => String.mk acc.reverse :: splitSlashAux rest []
  | c :: rest, acc => splitSlashAux rest (c :: acc)

/-- Python's `str.split('/')`: the segments between slashes, keeping
empty segments (so the empty string yields `[""]`). -/
def splitOnSlash (s : String) : List String :=
  splitSlashAux s.data []

/-- `FileFilter._is_ignored` for a path already known to lie under the
repository root: some pattern matches the full relative path, or the
pattern prefixed with `**/`, or some individual path component. -/
def is_ignored (patterns : List String) (pathStr : String) : Bool :=
  patterns.any (fun pattern =>
    fnmatch pathStr pattern ||
    fnmatch pathStr ("**/" ++ pattern) ||
    (splitOnSlash pathStr).any (fun part => fnmatch part pattern))

/-- `pathlib.PurePath.name` of a relative path: the final component. -/
def pathName (relPath : String) : String :=
  (splitOnSlash relPath).getLastD relPath

/-- Index of the last `.` in a list of characters, if any. -/
def lastDotIdx (l : List Char) : Option Nat :=
  ((l.enum.filter (fun p => p.2 == '.')).getLast?).map (·.1)

/-- `pathlib.PurePath.suffix`: the extension of the final component,
empty when the last dot is leading or trailing. -/
def pathSuffix (relPath : String) : String :=
  let name := pathName relPath
  match lastDotIdx name.data with
  | some i =>
    if 0 < i ∧ i < name.data.length - 1 then String.mk (name.data.drop i) else ""
  | none => ""

/-- `config.SUPPORTED_EXTENSIONS`: extension-to-language mapping. -/
def SUPPORTED_EXTENSIONS : List (String × String) :=
  [(".py", "python"), (".js", "javascript"), (".ts", "typescript"),
   (".tsx", "typescript"), (".jsx", "javascript"), (".java", "java"),
   (".cs", "csharp"), (".cpp", "cpp"), (".cc", "cpp"), (".c", "c"),
   (".h", "c"), (".hpp", "cpp"), (".go", "go"), (".rs", "rust"),
   (".rb", "ruby"), (".php", "php"), (".swift", "swift"), (".kt", "kotlin"),
   (".scala", "scala"), (".r", "r"), (".m", "objective-c"),
   (".html", "html"), (".css", "css"), (".scss", "scss"), (".sass", "sass"),
   (".vue", "vue"), (".sh", "shell"), (".bash", "shell"), (".zsh", "shell"),
   (".fish", "shell"), (".yaml", "txt"), (".yml", "txt"), (".toml", "txt"),
   (".json", "json"), (".xml", "txt"), (".md", "markdown"),
   (".rst", "restructuredtext"), (".txt", "text"), (".png", "image"),
   (".jpg", "image"), (".jpeg", "image"), (".gif", "image"),
   (".svg", "image"), (".webp", "image"), (".puml", "plantuml"),
   (".plantuml", "plantuml")]

/-- `config.IGNORE_PATTERNS`: the built-in default exclusion patterns. -/
def IGNORE_PATTERNS : List String :=
  [".git", ".svn", ".hg", ".bzr",
   "__pycache__", "*.pyc", "*.pyo", "*.pyd", ".pytest_cache", ".mypy_cache",
   ".tox", ".coverage", "htmlcov", "*.egg-info", ".eggs", "venv", "env",
   ".env", ".venv", "pip-log.txt", "poetry.lock", "Pipfile.lock", "pdm.lock",
   "node_modules", "bower_components", "package-lock.json", "yarn.lock",
   "pnpm-lock.yaml", "bun.lockb", ".next", ".nuxt", ".parcel-cache",
   ".cache", "npm-debug.log*", "yarn-debug.log*", "yarn-error.log*",
   "target", ".gradle", ".mvn", "*.class", "*.jar", "*.war", "*.ear",
   "bin", "obj", "packages", "packages.lock.json", ".vs", "*.suo", "*.user",
   "vendor", "go.sum", "go.work.sum",
   "Cargo.lock",
   ".bundle", "vendor/bundle", "Gemfile.lock",
   "vendor", "composer.lock", "composer.phar",
   "Package.resolved",
   "pubspec.lock",
   "mix.lock",
   "dist", "build", "out", "release", "Debug", "Release",
   "coverage", ".nyc_output",
   "logs", "*.log", "tmp", "temp", "*.tmp", "*.temp",
   ".vscode", ".idea", "*.iml", ".sublime-workspace", ".sublime-project",
   "*.swp", "*.swo", "*~", ".project", ".classpath", ".settings",
   ".DS_Store", "Thumbs.db", "desktop.ini"]

/-- A filesystem entry as seen by `filter_files`, by the attributes the
code inspects.  `statOk` is whether `stat(follow_symlinks=False)`
succeeds. -/
structure FSEntry where
  relPath : String
  isDir : Bool
  isSymlink : Bool
  size : Nat
  statOk : Bool
deriving DecidableEq

/-- `FileFilter._is_supported_file`: `path.suffix in self.extensions`. -/
def is_supported_file (exts : List (String × String)) (e : FSEntry) : Bool :=
  exts.any (fun kv => kv.1 == pathSuffix e.relPath)

/-- `FileFilter._is_size_ok`: `stat` failure or a symlink gives `False`,
otherwise the size must not exceed the limit. -/
def is_size_ok (maxSize : Nat) (e : FSEntry) : Bool :=
  if e.statOk = false then false
  else if e.isSymlink then false
  else decide (e.size ≤ maxSize)

/-- The running state of `filter_files`: the accepted files and the three
skip counters. -/
structure FilterState where
  validFiles : List FSEntry
  skippedIgnored : Nat
  skippedExtension : Nat
  skippedSize : Nat
deriving DecidableEq

/-- One iteration of the `filter_files` loop, in the code's order:
directories are dropped, symlinks and ignored paths bump the ignored
counter, unsupported extensions bump the extension counter, oversized or
unreadable files bump the size counter, everything else is accepted. -/
def filterStep (patterns : List String) (exts : List (String × String))
    (maxSize : Nat) (st : FilterState) (e : FSEntry) : FilterState :=
  if e.isDir then st
  else if e.isSymlink then { st with skippedIgnored := st.skippedIgnored + 1 }
  else if is_ignored patterns e.relPath then
    { st with skippedIgnored := st.skippedIgnored + 1 }
  else if is_supported_file exts e = false then
    { st with skippedExtension := st.skippedExtension + 1 }
  else if is_size_ok maxSize e = false then
    { st with skippedSize := st.skippedSize + 1 }
  else { st with validFiles := st.validFiles ++ [e] }

/-- `FileFilter.filter_files` over the traversal sequence. -/
def filter_files (patterns : List String) (exts : List (String × String))
    (maxSize : Nat) (entries : List FSEntry) : FilterState :=
  entries.foldl (filterStep patterns exts maxSize) ⟨[], 0, 0, 0⟩

/-! ## Resilient transport (`R2RClient._retry_request`)

One attempt either returns an HTTP response (status code plus body text)
or raises a `requests.RequestException` with some message.  A simulated
server maps the attempt index to that outcome.  The loop makes up to
`API_RETRY_ATTEMPTS` requests; the run result records the error-or-
response outcome, the number of requests actually issued, and the
sequence of sleep durations (in seconds, as the code computes them).
Python slices the response body by characters, embedded as `strTake`. -/

/-- Python's `text[:200]`-style slice: the first `n` characters. -/
def strTake (n : Nat) (s : String) : String :=
  String.mk (s.data.take n)

/-- Outcome of one attempted HTTP request. -/
inductive AttemptOutcome where
  | resp (status : Nat) (text : String)
  | exn (msg : String)
deriving DecidableEq

/-- Message of the non-retryable client error
(`f"HTTP {status_code}: {text[:200]}"`). -/
def clientErrorMsg (status : Nat) (text : String) : String :=
  "HTTP " ++ toString status ++ ": " ++ strTake 200 text

/-- Message raised when the loop ends without returning
(`f"Failed after {N} attempts"`). -/
def exhaustedMsg (n : Nat) : String :=
  "Failed after " ++ toString n ++ " attempts"

/-- Message raised when the last attempt hits a transport exception
(`f"Request failed after {N} attempts: {e}"`). -/
def transportFailMsg (n : Nat) (e : String) : String :=
  "Request failed after " ++ toString n ++ " attempts: " ++ e

instance exceptDecEq {ε α : Type} [DecidableEq ε] [DecidableEq α] :
    DecidableEq (Except ε α) := fun x y =>
  match x, y with
  | Except.ok a, Except.ok b =>
    if h : a = b then isTrue (by rw [h])
    else isFalse (by intro he; cases he; exact h rfl)
  | Except.error a, Except.error b =>
    if h : a = b then isTrue (by rw [h])
    else isFalse (by intro he; cases he; exact h rfl)
  | Except.ok _, Except.error _ => isFalse (by intro he; cases he)
  | Except.error _, Except.ok _ => isFalse (by intro he; cases he)

/-- Result of a `_retry_request` run. -/
structure RunResult where
  result : Except String (Nat × String)
  requests : Nat
  sleeps : List Nat
deriving DecidableEq

/-- The retry loop from attempt index `attempt` with `remaining` loop
iterations left (`remaining = nAttempts - attempt` at the top-level
call).  Branches follow the code in order: 200/201/202 return; 429
sleeps `2 ^ attempt * backoff` and retries; any other 4xx raises the
client error; 5xx sleeps `2 ^ attempt` and retries; any remaining status
falls off the `if` chain and retries without sleeping; an exception on
the last attempt raises, otherwise it sleeps `2 ^ attempt` and retries.
An exhausted loop raises the retry-exhausted error. -/
def retryGo (server : Nat → AttemptOutcome) (nAttempts backoff : Nat) :
    Nat → Nat → RunResult
  | _, 0 => ⟨Except.error (exhaustedMsg nAttempts), 0, []⟩
  | attempt, r + 1 =>
    match server attempt with
    | AttemptOutcome.resp s t =>
      if s = 200 ∨ s = 201 ∨ s = 202 then ⟨Except.ok (s, t), 1, []⟩
      else if s = 429 then
        let rest := retryGo server nAttempts backoff (attempt + 1) r
        ⟨rest.result, rest.requests + 1, 2 ^ attempt * backoff :: rest.sleeps⟩
      else if 400 ≤ s ∧ s < 500 then
        ⟨Except.error (clientErrorMsg s t), 1, []⟩
      else if 500 ≤ s then
        let rest := retryGo server nAttempts backoff (attempt + 1) r
        ⟨rest.result, rest.requests + 1, 2 ^ attempt :: rest.sleeps⟩
      else
        let rest := retryGo server nAttempts backoff (attempt + 1) r
        ⟨rest.result, rest.requests + 1, rest.sleeps⟩
    | AttemptOutcome.exn m =>
      if attempt = nAttempts - 1 then
        ⟨Except.error (transportFailMsg nAttempts m), 1, []⟩
      else
        let rest := retryGo server nAttempts backoff (attempt + 1) r
        ⟨rest.result, rest.requests + 1, 2 ^ attempt :: rest.sleeps⟩

/-- `_retry_request` with the configured attempt ceiling and backoff. -/
def retry_request (server : Nat → AttemptOutcome) : RunResult :=
  retryGo server API_RETRY_ATTEMPTS API_RETRY_BACKOFF 0 API_RETRY_ATTEMPTS

/-- An attempt outcome that neither returns a success (200/201/202) nor
raises a non-retryable client error (4xx other than 429). -/
def retryableOutcome : AttemptOutcome → Bool
  | AttemptOutcome.resp s _ =>
    !(s == 200) && !(s == 201) && !(s == 202) &&
      ((s == 429) || decide (s < 400) || decide (500 ≤ s))
  | AttemptOutcome.exn _ => true

/-! ## Upload loop of `RepositoryLoader.load_repository` (STEP 4)

Per candidate file the loop issues the upload; on success it increments
`files_uploaded` and sleeps `UPLOAD_DELAY_MS / 1000` seconds; any
exception is caught, increments `files_failed`, and the loop continues
with the next file.  The observable behavior is modelled as a trace of
upload calls and sleeps (durations kept in milliseconds) plus the
statistics counters; a file's outcome is `true` when its upload
succeeds. -/

/-- An observable event of the upload loop. -/
inductive UpEvent where
  | upload (i : Nat)
  | sleep (ms : Nat)
deriving DecidableEq

/-- Trace of the loop from 1-based file index `i`: each file is uploaded;
a successful upload is followed by the rate-limiting sleep, a failed one
is not. -/
def uploadSteps (delay : Nat) : Nat → List Bool → List UpEvent
  | _, [] => []
  | i, ok :: rest =>
    UpEvent.upload i ::
      (if ok then [UpEvent.sleep delay] else []) ++ uploadSteps delay (i + 1) rest

/-- The event trace of STEP 4 with the configured delay
(`enumerate(files, 1)` starts the index at 1). -/
def upload_trace (outcomes : List Bool) : List UpEvent :=
  uploadSteps UPLOAD_DELAY_MS 1 outcomes

/-- The statistics fields of `load_repository` touched by the upload
loop. -/
structure LoadStats where
  files_found : Nat
  files_uploaded : Nat
  files_failed : Nat
deriving DecidableEq

/-- The counter updates of the upload loop. -/
def uploadFold (st : LoadStats) : List Bool → LoadStats
  | [] => st
  | ok :: rest =>
    uploadFold
      (if ok then { st with files_uploaded := st.files_uploaded + 1 }
       else { st with files_failed := st.files_failed + 1 }) rest

/-- The statistics after STEP 4: `files_found` is set to the number of
candidates before the loop, then each outcome bumps one counter. -/
def load_repository_stats (outcomes : List Bool) : LoadStats :=
  uploadFold ⟨outcomes.length, 0, 0⟩ outcomes

/-- Number of upload calls in a trace. -/
def uploadsIn (tr : List UpEvent) : Nat :=
  tr.countP (fun e => match e with
    | UpEvent.upload _ => true
    | UpEvent.sleep _ => false)

/-- Sum of the sleep durations at the head of a trace, up to the next
upload call. -/
def sleepsBeforeNextUpload : List UpEvent → Nat
  | [] => 0
  | UpEvent.sleep m :: rest => m + sleepsBeforeNextUpload rest
  | UpEvent.upload _ :: _ => 0

/-- The suffix of a trace right after its `n`-th (0-based) upload call. -/
def afterUpload : Nat → List UpEvent → List UpEvent
  | _, [] => []
  | n, UpEvent.sleep _ :: rest => afterUpload n rest
  | 0, UpEvent.upload _ :: rest => rest
  | Nat.succ k, UpEvent.upload _ :: rest => afterUpload k rest

/-- Whether every pair of consecutive upload calls in a trace is
separated by sleeps summing to at least `d`. -/
def gapOk (d : Nat) : Option Nat → List UpEvent → Bool
  | _, [] => true
  | pending, UpEvent.sleep m :: rest => gapOk d (pending.map (· + m)) rest
  | none, UpEvent.upload _ :: rest => gapOk d (some 0) rest
  | some s, UpEvent.upload _ :: rest => decide (d ≤ s) && gapOk d (some 0) rest

/-- Minimum-delay property of a whole trace. -/
def minDelayBetweenUploads (d : Nat) (tr : List UpEvent) : Bool :=
  gapOk d none tr

/-! ## Theorems -/

theorem wordBytes_mem_lt {b w : Nat} (h : b ∈ wordBytes w) : b < 256 := by
  simp only [wordBytes, List.mem_cons, List.not_mem_nil, or_false] at h
  rcases h with h | h | h | h <;> subst h <;> exact Nat.mod_lt _ (by decide)

theorem wordBytes5_mem_lt {b w0 w1 w2 w3 w4 : Nat}
    (h : b ∈ wordBytes w0 ++ wordBytes w1 ++ wordBytes w2 ++
      wordBytes w3 ++ wordBytes w4) : b < 256 := by
  rcases List.mem_append.mp h with h | h
  case inr => exact wordBytes_mem_lt h
  rcases List.mem_append.mp h with h | h
  case inr => exact wordBytes_mem_lt h
  rcases List.mem_append.mp h with h | h
  case inr => exact wordBytes_mem_lt h
  rcases List.mem_append.mp h with h | h
  case inr => exact wordBytes_mem_lt h
  exact wordBytes_mem_lt h

theorem sha1_mem_lt {b : Nat} {msg : List Nat} (h : b ∈ sha1 msg) : b < 256 := by
  simp only [sha1] at h
  exact wordBytes5_mem_lt h

theorem foldl_bytes_lt (l : List Nat) :
    ∀ a : Nat, (∀ b ∈ l, b < 256) →
      List.foldl (fun a b => a * 256 + b) a l < (a + 1) * 256 ^ l.length := by
  induction l with
  | nil =>
    intro a _
    simpa using Nat.lt_succ_self a
  | cons b l ih =>
    intro a hmem
    have hb : b < 256 := hmem b (List.mem_cons_self b l)
    have h1 : List.foldl (fun a b => a * 256 + b) (a * 256 + b) l <
        (a * 256 + b + 1) * 256 ^ l.length :=
      ih (a * 256 + b) (fun x hx => hmem x (List.mem_cons_of_mem _ hx))
    have h2 : (a * 256 + b + 1) * 256 ^ l.length ≤
        ((a + 1) * 256) * 256 ^ l.length := by
      have : a * 256 + b + 1 ≤ (a + 1) * 256 := by nlinarith
      exact Nat.mul_le_mul_right _ this
    calc List.foldl (fun a b => a * 256 + b) a (b :: l)
        = List.foldl (fun a b => a * 256 + b) (a * 256 + b) l := rfl
      _ < (a * 256 + b + 1) * 256 ^ l.length := h1
      _ ≤ ((a + 1) * 256) * 256 ^ l.length := h2
      _ = (a + 1) * 256 ^ (b :: l).length := by
          simp [List.length_cons, Nat.pow_succ]
          ring

theorem bytesToNatBE_lt {l : List Nat} (h : ∀ b ∈ l, b < 256) :
    bytesToNatBE l < 256 ^ l.length := by
  have := foldl_bytes_lt l 0 h
  simpa [bytesToNatBE] using this

theorem uuid5Int_lt (nameBytes : List Nat) : uuid5Int nameBytes < 2 ^ 128 := by
  unfold uuid5Int
  set digest := sha1 (NAMESPACE_DNS ++ nameBytes) with hdig
  have htake : ∀ b ∈ digest.take 16, b < 256 := by
    intro b hb
    exact sha1_mem_lt (List.mem_of_mem_take hb)
  have hlen : (digest.take 16).length ≤ 16 := List.length_take_le _ _
  have hraw : bytesToNatBE (digest.take 16) < 2 ^ 128 := by
    have h1 := bytesToNatBE_lt htake
    have h2 : (256 : Nat) ^ (digest.take 16).length ≤ 256 ^ 16 :=
      Nat.pow_le_pow_right (by decide) hlen
    have h3 : (256 : Nat) ^ 16 = 2 ^ 128 := by decide
    omega
  have hv1 : bytesToNatBE (digest.take 16) &&& (2 ^ 128 - 1 ^^^ 0xc000 <<< 48) < 2 ^ 128 :=
    Nat.lt_of_le_of_lt Nat.and_le_left hraw
  have hv2 : bytesToNatBE (digest.take 16) &&& (2 ^ 128 - 1 ^^^ 0xc000 <<< 48) |||
      0x8000 <<< 48 < 2 ^ 128 :=
    Nat.or_lt_two_pow hv1 (by decide)
  have hv3 : (bytesToNatBE (digest.take 16) &&& (2 ^ 128 - 1 ^^^ 0xc000 <<< 48) |||
      0x8000 <<< 48) &&& (2 ^ 128 - 1 ^^^ 0xf000 <<< 64) < 2 ^ 128 :=
    Nat.lt_of_le_of_lt Nat.and_le_left hv2
  exact Nat.or_lt_two_pow hv3 (by decide)

theorem uniqueKey_inj_right {url p1 p2 : String}
    (h : uniqueKey url p1 = uniqueKey url p2) : p1 = p2 := by
  unfold uniqueKey at h
  have hd : (url ++ ":").data ++ p1.data = (url ++ ":").data ++ p2.data := by
    have := congrArg String.data h
    simpa [String.data_append] using this
  exact String.ext (List.append_cancel_left hd)

/-- C1 (amended).  `generate_document_id` is a pure deterministic
function: two calls with identical inputs yield the identical identifier,
and changing the path while holding the repo URL fixed always changes the
hashed key string `repoURL ++ ":" ++ path` (so the identifiers differ
except when the underlying UUID5 hash collides on distinct keys). -/
theorem C1_generate_document_id_deterministic_key_injective
    (url p1 p2 : String) :
    generate_document_id url p1 = generate_document_id url p1 ∧
      (p1 ≠ p2 → uniqueKey url p1 ≠ uniqueKey url p2) := by
  refine ⟨rfl, fun hne hk => hne ?_⟩
  exact uniqueKey_inj_right hk

/-- C1 witness: the amended theorem at url `"u"`, paths `"a"` and
`"b"`. -/
theorem C1_witness :
    generate_document_id "u" "a" = generate_document_id "u" "a" ∧
      ("a" : String) ≠ "b" ∧ uniqueKey "u" "a" ≠ uniqueKey "u" "b" := by
  have h := C1_generate_document_id_deterministic_key_injective "u" "a" "b"
  exact ⟨h.1, by decide, h.2 (by decide)⟩

/-- C1 counterexample.  The claim "changing the path while holding the
repoURL fixed always changes the output identifier" is false: the
identifier is a 128-bit UUID5 value, so infinitely many distinct paths
map into finitely many identifiers and two distinct paths must share
one. -/
theorem C1_counterexample :
    ∃ p1 p2 : String, p1 ≠ p2 ∧
      generate_document_id "u" p1 = generate_document_id "u" p2 := by
  have hg := Finite.exists_ne_map_eq_of_infinite
    (fun n : Nat =>
      (⟨uuid5Int (utf8Encode (uniqueKey "u" (String.mk (List.replicate n 'a')))),
        uuid5Int_lt _⟩ : Fin (2 ^ 128)))
  obtain ⟨m, k, hmk, heq⟩ := hg
  refine ⟨String.mk (List.replicate m 'a'), String.mk (List.replicate k 'a'), ?_, ?_⟩
  · intro h
    apply hmk
    have hdata : List.replicate m 'a' = List.replicate k 'a' := by
      have := congrArg String.data h
      simpa using this
    have := congrArg List.length hdata
    simpa using this
  · have hval := congrArg Fin.val heq
    simp only at hval
    unfold generate_document_id
    rw [hval]

/-- C10.  The document identifier depends only on the concatenated
string `repoURL ++ ":" ++ relativePath`: any two pairs with equal
concatenations receive the same identifier. -/
theorem C10_generate_document_id_depends_only_on_key
    (u1 p1 u2 p2 : String) (h : uniqueKey u1 p1 = uniqueKey u2 p2) :
    generate_document_id u1 p1 = generate_document_id u2 p2 := by
  unfold generate_document_id
  rw [h]

/-- C10 witness: URL `"a:b"` with path `"c"` and URL `"a"` with path
`"b:c"` have equal concatenated keys, hence equal identifiers. -/
theorem C10_witness :
    uniqueKey "a:b" "c" = uniqueKey "a" "b:c" ∧
      generate_document_id "a:b" "c" = generate_document_id "a" "b:c" := by
  have hk : uniqueKey "a:b" "c" = uniqueKey "a" "b:c" := by decide
  exact ⟨hk, C10_generate_document_id_depends_only_on_key "a:b" "c" "a" "b:c" hk⟩

/-- C5 (amended).  For every HTTP response whose status code is 200, 201
or 202, `_retry_request` returns that response immediately on the attempt
that received it, performing no further requests or sleeps.  (Other 2xx
codes such as 204 are not treated as success by the code; they fall
through the status checks and are retried.) -/
theorem C5_success_code_returns_immediately
    (server : Nat → AttemptOutcome) (n b k r s : Nat) (t : String)
    (hs : server k = AttemptOutcome.resp s t)
    (hcode : s = 200 ∨ s = 201 ∨ s = 202) :
    retryGo server n b k (r + 1) = ⟨Except.ok (s, t), 1, []⟩ := by
  simp only [retryGo]
  rw [hs]
  simp [hcode]

/-- C5 witness: a server answering 201 on the very first attempt. -/
theorem C5_witness :
    retry_request (fun _ => AttemptOutcome.resp 201 "created") =
      ⟨Except.ok (201, "created"), 1, []⟩ :=
  C5_success_code_returns_immediately (fun _ => AttemptOutcome.resp 201 "created")
    API_RETRY_ATTEMPTS API_RETRY_BACKOFF 0 2 201 "created" rfl (Or.inr (Or.inl rfl))

/-- C5 counterexample.  A 204 response — in the 2xx range — is not
returned immediately: the code only accepts 200/201/202, so a server
answering 204 then 200 needs two requests and the run returns the later
200 response, not the 204 one. -/
theorem C5_counterexample :
    retry_request (fun k => if k = 0 then AttemptOutcome.resp 204 "nc"
      else AttemptOutcome.resp 200 "ok") = ⟨Except.ok (200, "ok"), 2, []⟩ ∧
    ¬ ((retry_request (fun k => if k = 0 then AttemptOutcome.resp 204 "nc"
        else AttemptOutcome.resp 200 "ok")).result = Except.ok (204, "nc") ∧
      (retry_request (fun k => if k = 0 then AttemptOutcome.resp 204 "nc"
        else AttemptOutcome.resp 200 "ok")).requests = 1) := by
  constructor
  · decide
  · decide

/-- C6.  A 429 answer makes the loop sleep `backoff * 2 ^ attempt`
seconds and retry: with the configured ceiling of 3 attempts and backoff
2, a server answering 429 on the first two calls and 200 on the third
succeeds on the third attempt, and the recorded sleeps follow the
exponential schedule `backoff * 2 ^ 0`, `backoff * 2 ^ 1`. -/
theorem C6_rate_limited_backoff_schedule
    (server : Nat → AttemptOutcome) (t0 t1 t2 : String)
    (h0 : server 0 = AttemptOutcome.resp 429 t0)
    (h1 : server 1 = AttemptOutcome.resp 429 t1)
    (h2 : server 2 = AttemptOutcome.resp 200 t2) :
    retry_request server =
      ⟨Except.ok (200, t2), 3,
        [2 ^ 0 * API_RETRY_BACKOFF, 2 ^ 1 * API_RETRY_BACKOFF]⟩ ∧
    (retry_request server).sleeps.sum =
      API_RETRY_BACKOFF * 2 ^ 0 + API_RETRY_BACKOFF * 2 ^ 1 := by
  have hrun : retry_request server =
      ⟨Except.ok (200, t2), 3,
        [2 ^ 0 * API_RETRY_BACKOFF, 2 ^ 1 * API_RETRY_BACKOFF]⟩ := by
    show retryGo server 3 2 0 3 = _
    simp only [retryGo]
    rw [h0, h1, h2]
    norm_num [API_RETRY_BACKOFF]
  refine ⟨hrun, ?_⟩
  rw [hrun]
  norm_num [API_RETRY_BACKOFF]

/-- C6 witness: the schedule at a concrete simulated server. -/
theorem C6_witness :
    retry_request (fun k => if k < 2 then AttemptOutcome.resp 429 "slow"
      else AttemptOutcome.resp 200 "ok") =
      ⟨Except.ok (200, "ok"), 3,
        [2 ^ 0 * API_RETRY_BACKOFF, 2 ^ 1 * API_RETRY_BACKOFF]⟩ ∧
    (retry_request (fun k => if k < 2 then AttemptOutcome.resp 429 "slow"
      else AttemptOutcome.resp 200 "ok")).sleeps.sum =
      API_RETRY_BACKOFF * 2 ^ 0 + API_RETRY_BACKOFF * 2 ^ 1 :=
  C6_rate_limited_backoff_schedule _ "slow" "slow" "ok" rfl rfl rfl

/-- C7.  A 4xx status other than 429 raises the non-retryable client
error on the attempt that received it: exactly one request is made from
that attempt on, no sleep is recorded, and the error message carries the
status code and the response body truncated to at most 200 characters. -/
theorem C7_client_error_no_retry
    (server : Nat → AttemptOutcome) (n b k r s : Nat) (t : String)
    (hs : server k = AttemptOutcome.resp s t)
    (h400 : 400 ≤ s) (h500 : s < 500) (h429 : s ≠ 429) :
    retryGo server n b k (r + 1) =
      ⟨Except.error (clientErrorMsg s t), 1, []⟩ ∧
    (strTake 200 t).length ≤ 200 := by
  constructor
  · simp only [retryGo]
    rw [hs]
    have hns : ¬(s = 200 ∨ s = 201 ∨ s = 202) := by omega
    simp [hns, h429, h400, h500]
  · show (String.mk (t.data.take 200)).length ≤ 200
    rw [String.length_mk]
    exact List.length_take_le 200 t.data

/-- C7 witness: a server answering 404 on the first attempt; the whole
run makes exactly one request, sleeps never, and surfaces the client
error. -/
theorem C7_witness :
    retry_request (fun _ => AttemptOutcome.resp 404 "nope") =
      ⟨Except.error (clientErrorMsg 404 "nope"), 1, []⟩ ∧
    (strTake 200 "nope").length ≤ 200 :=
  C7_client_error_no_retry (fun _ => AttemptOutcome.resp 404 "nope")
    API_RETRY_ATTEMPTS API_RETRY_BACKOFF 0 2 404 "nope" rfl
    (by decide) (by decide) (by decide)

theorem data_head_append (a x : String) (c : Char) (h : a.data.head? = some c) :
    (a ++ x).data.head? = some c := by
  rw [String.data_append]
  cases ha : a.data with
  | nil => rw [ha] at h; cases h
  | cons hd tl =>
    rw [ha] at h
    simp only [List.head?_cons, Option.some.injEq] at h
    subst h
    simp

theorem ne_of_head_ne {m1 m2 : String} {c1 c2 : Char}
    (h1 : m1.data.head? = some c1) (h2 : m2.data.head? = some c2)
    (hc : c1 ≠ c2) : m1 ≠ m2 := by
  intro he
  subst he
  rw [h1] at h2
  exact hc (Option.some.injEq _ _ ▸ h2)

theorem exhaustedMsg_head (n : Nat) : (exhaustedMsg n).data.head? = some 'F' := by
  unfold exhaustedMsg
  exact data_head_append _ _ _ (data_head_append _ _ _ rfl)

theorem transportFailMsg_head (n : Nat) (e : String) :
    (transportFailMsg n e).data.head? = some 'R' := by
  unfold transportFailMsg
  exact data_head_append _ _ _ (data_head_append _ _ _ (data_head_append _ _ _ rfl))

theorem clientErrorMsg_head (s : Nat) (t : String) :
    (clientErrorMsg s t).data.head? = some 'H' := by
  unfold clientErrorMsg
  exact data_head_append _ _ _ (data_head_append _ _ _ (data_head_append _ _ _ rfl))

theorem retry_exhausted_shape (server : Nat → AttemptOutcome) (n b : Nat) :
    ∀ r k, (∀ j, retryableOutcome (server j) = true) →
      (retryGo server n b k r).result = Except.error (exhaustedMsg n) ∨
        ∃ e, (retryGo server n b k r).result = Except.error (transportFailMsg n e) := by
  intro r
  induction r with
  | zero => intro k _; left; rfl
  | succ r ih =>
    intro k h
    have hk := h k
    cases hsrv : server k with
    | resp s t =>
      rw [hsrv] at hk
      simp only [retryableOutcome, Bool.and_eq_true, Bool.or_eq_true,
        Bool.not_eq_true', beq_eq_false_iff_ne, beq_iff_eq,
        decide_eq_true_eq] at hk
      obtain ⟨⟨⟨h200, h201⟩, h202⟩, hret⟩ := hk
      have hnsucc : ¬(s = 200 ∨ s = 201 ∨ s = 202) := by
        push_neg
        exact ⟨h200, h201, h202⟩
      by_cases h429 : s = 429
      · have : (retryGo server n b k (r + 1)).result =
            (retryGo server n b (k + 1) r).result := by
          simp only [retryGo]
          rw [hsrv]
          simp [hnsucc, h429]
        rw [this]
        exact ih (k + 1) h
      · have hn4xx : ¬(400 ≤ s ∧ s < 500) := by
          rcases hret with (h' | h') | h' <;> omega
        by_cases h5 : 500 ≤ s
        · have : (retryGo server n b k (r + 1)).result =
              (retryGo server n b (k + 1) r).result := by
            simp only [retryGo]
            rw [hsrv]
            simp [hnsucc, h429, hn4xx, h5]
          rw [this]
          exact ih (k + 1) h
        · have : (retryGo server n b k (r + 1)).result =
              (retryGo server n b (k + 1) r).result := by
            simp only [retryGo]
            rw [hsrv]
            simp [hnsucc, h429, hn4xx, h5]
          rw [this]
          exact ih (k + 1) h
    | exn m =>
      by_cases hlast : k = n - 1
      · right
        refine ⟨m, ?_⟩
        simp only [retryGo]
        rw [hsrv]
        simp [hlast]
      · have : (retryGo server n b k (r + 1)).result =
            (retryGo server n b (k + 1) r).result := by
          simp only [retryGo]
          rw [hsrv]
          simp [hlast]
        rw [this]
        exact ih (k + 1) h

/-- C2.  When every attempt's outcome is retryable (no 200/201/202
success and no non-retryable 4xx), the run surfaces a retry-exhausted
error — either the end-of-loop message or the last-attempt transport
message — and that error differs from every possible client-error
message, so a caller can distinguish "server never available" from
"request was rejected". -/
theorem C2_retry_exhausted_distinct_from_client_error
    (server : Nat → AttemptOutcome) (n b k r : Nat)
    (h : ∀ j, retryableOutcome (server j) = true) :
    ∃ m, (retryGo server n b k r).result = Except.error m ∧
      (m = exhaustedMsg n ∨ ∃ e, m = transportFailMsg n e) ∧
      ∀ s t, m ≠ clientErrorMsg s t := by
  rcases retry_exhausted_shape server n b r k h with hsh | ⟨e, hsh⟩
  · exact ⟨exhaustedMsg n, hsh, Or.inl rfl, fun s t =>
      ne_of_head_ne (exhaustedMsg_head n) (clientErrorMsg_head s t) (by decide)⟩
  · exact ⟨transportFailMsg n e, hsh, Or.inr ⟨e, rfl⟩, fun s t =>
      ne_of_head_ne (transportFailMsg_head n e) (clientErrorMsg_head s t) (by decide)⟩

/-- C2 witness: a server that always answers 503.  Every outcome is
retryable, the run errors, and the message differs from every client
error message. -/
theorem C2_witness :
    (∀ j, retryableOutcome ((fun _ : Nat => AttemptOutcome.resp 503 "down") j) = true) ∧
    ∃ m, (retry_request (fun _ => AttemptOutcome.resp 503 "down")).result =
        Except.error m ∧
      (m = exhaustedMsg API_RETRY_ATTEMPTS ∨
        ∃ e, m = transportFailMsg API_RETRY_ATTEMPTS e) ∧
      ∀ s t, m ≠ clientErrorMsg s t :=
  ⟨fun _ => rfl,
    C2_retry_exhausted_distinct_from_client_error
      (fun _ => AttemptOutcome.resp 503 "down")
      API_RETRY_ATTEMPTS API_RETRY_BACKOFF 0 API_RETRY_ATTEMPTS
      (fun _ => rfl)⟩

/-- C3 (amended).  For every non-symlink regular file that passes the
exclusion matcher and has a supported extension, exceeding the size limit
makes `filter_files` exclude the file and increment the size-skip
counter, leaving the extension-skip and exclusion-skip counters and the
accepted list unchanged.  (An oversized file that is also excluded or has
an unsupported extension is counted by the earlier check instead.) -/
theorem C3_oversized_file_counted_as_size_skip
    (patterns : List String) (exts : List (String × String))
    (maxSize : Nat) (st : FilterState) (e : FSEntry)
    (hdir : e.isDir = false) (hsym : e.isSymlink = false)
    (hign : is_ignored patterns e.relPath = false)
    (hext : is_supported_file exts e = true)
    (hstat : e.statOk = true) (hsize : maxSize < e.size) :
    filterStep patterns exts maxSize st e =
      { st with skippedSize := st.skippedSize + 1 } := by
  unfold filterStep
  rw [if_neg (by simp [hdir]), if_neg (by simp [hsym]), if_neg (by simp [hign]),
    if_neg (by simp [hext]),
    if_pos (by simp [is_size_ok, hstat, hsym]; omega)]

/-- C3 witness: an oversized regular `.py` file not matching any default
exclusion pattern bumps only the size-skip counter. -/
theorem C3_witness :
    is_ignored IGNORE_PATTERNS "src/big.py" = false ∧
    is_supported_file SUPPORTED_EXTENSIONS
      ⟨"src/big.py", false, false, MAX_FILE_SIZE_BYTES + 1, true⟩ = true ∧
    MAX_FILE_SIZE_BYTES < MAX_FILE_SIZE_BYTES + 1 ∧
    filterStep IGNORE_PATTERNS SUPPORTED_EXTENSIONS MAX_FILE_SIZE_BYTES
      ⟨[], 0, 0, 0⟩ ⟨"src/big.py", false, false, MAX_FILE_SIZE_BYTES + 1, true⟩ =
      ⟨[], 0, 0, 1⟩ := by
  refine ⟨by decide, by decide, by decide, ?_⟩
  exact C3_oversized_file_counted_as_size_skip IGNORE_PATTERNS
    SUPPORTED_EXTENSIONS MAX_FILE_SIZE_BYTES ⟨[], 0, 0, 0⟩
    ⟨"src/big.py", false, false, MAX_FILE_SIZE_BYTES + 1, true⟩
    rfl rfl (by decide) (by decide) rfl (by decide)

/-- C3 counterexample.  An oversized non-symlink regular file that also
matches a default exclusion pattern (`node_modules/big.py`) is excluded,
but the run increments the exclusion-skip counter, not the size-skip
counter — contradicting the claim that size rejection is counted for
every oversized file and that the exclusion counter is never touched for
it. -/
theorem C3_counterexample :
    filter_files IGNORE_PATTERNS SUPPORTED_EXTENSIONS MAX_FILE_SIZE_BYTES
      [⟨"node_modules/big.py", false, false, MAX_FILE_SIZE_BYTES + 1, true⟩] =
      ⟨[], 1, 0, 0⟩ := by
  decide

/-- C9.  A symbolic link — whatever its extension, size or target — is
never included in the accepted file list of `filter_files`. -/
theorem C9_symlinks_never_selected
    (patterns : List String) (exts : List (String × String))
    (maxSize : Nat) (entries : List FSEntry) (e : FSEntry)
    (hsym : e.isSymlink = true) :
    e ∉ (filter_files patterns exts maxSize entries).validFiles := by
  have key : ∀ (l : List FSEntry) (st : FilterState), e ∉ st.validFiles →
      e ∉ (l.foldl (filterStep patterns exts maxSize) st).validFiles := by
    intro l
    induction l with
    | nil => intro st h; exact h
    | cons x rest ih =>
      intro st h
      apply ih
      unfold filterStep
      by_cases h1 : x.isDir = true
      · rw [if_pos h1]; exact h
      rw [if_neg h1]
      by_cases h2 : x.isSymlink = true
      · rw [if_pos h2]; exact h
      rw [if_neg h2]
      by_cases h3 : is_ignored patterns x.relPath = true
      · rw [if_pos h3]; exact h
      rw [if_neg h3]
      by_cases h4 : is_supported_file exts x = false
      · rw [if_pos h4]; exact h
      rw [if_neg h4]
      by_cases h5 : is_size_ok maxSize x = false
      · rw [if_pos h5]; exact h
      rw [if_neg h5]
      intro hmem
      rcases List.mem_append.mp hmem with hmem | hmem
      · exact h hmem
      · have hex : e = x := by simpa using hmem
        subst hex
        rw [hsym] at h2
        exact h2 rfl
  exact key entries ⟨[], 0, 0, 0⟩ (by simp)

/-- C9 witness: a symlinked `.py` file of small size is not selected. -/
theorem C9_witness :
    (⟨"ln.py", false, true, 1, true⟩ : FSEntry).isSymlink = true ∧
    (⟨"ln.py", false, true, 1, true⟩ : FSEntry) ∉
      (filter_files IGNORE_PATTERNS SUPPORTED_EXTENSIONS MAX_FILE_SIZE_BYTES
        [⟨"ln.py", false, true, 1, true⟩]).validFiles :=
  ⟨rfl, C9_symlinks_never_selected IGNORE_PATTERNS SUPPORTED_EXTENSIONS
    MAX_FILE_SIZE_BYTES [⟨"ln.py", false, true, 1, true⟩]
    ⟨"ln.py", false, true, 1, true⟩ rfl⟩

theorem sleepsBeforeNextUpload_uploadSteps (d i : Nat) (l : List Bool) :
    sleepsBeforeNextUpload (uploadSteps d i l) = 0 := by
  cases l <;> rfl

theorem afterUpload_uploadSteps_sleeps (d : Nat) :
    ∀ (l : List Bool) (i n : Nat), l.getD n false = true →
      sleepsBeforeNextUpload (afterUpload n (uploadSteps d i l)) = d := by
  intro l
  induction l with
  | nil => intro i n h; simp [List.getD] at h
  | cons ok rest ih =>
    intro i n h
    cases n with
    | zero =>
      have hok : ok = true := by simpa using h
      subst hok
      show sleepsBeforeNextUpload
        (afterUpload 0 (UpEvent.upload i ::
          (UpEvent.sleep d :: uploadSteps d (i + 1) rest))) = d
      simp [afterUpload, sleepsBeforeNextUpload,
        sleepsBeforeNextUpload_uploadSteps]
    | succ k =>
      have hres : rest.getD k false = true := by simpa using h
      cases ok
      · show sleepsBeforeNextUpload
          (afterUpload (k + 1) (UpEvent.upload i :: uploadSteps d (i + 1) rest)) = d
        simp only [afterUpload]
        exact ih (i + 1) k hres
      · show sleepsBeforeNextUpload
          (afterUpload (k + 1) (UpEvent.upload i ::
            (UpEvent.sleep d :: uploadSteps d (i + 1) rest))) = d
        simp only [afterUpload]
        exact ih (i + 1) k hres

/-- C4 (amended).  In the upload loop, the rate-limiting delay of
`UPLOAD_DELAY_MS` elapses after every successful upload before the next
upload call; after a failed upload the next call may follow with no
intervening delay (the sleep sits inside the `try` block after the
success bookkeeping, so an exception skips it). -/
theorem C4_delay_after_successful_upload
    (outcomes : List Bool) (n : Nat) (h : outcomes.getD n false = true) :
    sleepsBeforeNextUpload (afterUpload n (upload_trace outcomes)) =
      UPLOAD_DELAY_MS :=
  afterUpload_uploadSteps_sleeps UPLOAD_DELAY_MS outcomes 1 n h

/-- C4 witness: the amended theorem at the run `[true, false, true]` for
the first upload. -/
theorem C4_witness :
    ([true, false, true].getD 0 false = true) ∧
    sleepsBeforeNextUpload (afterUpload 0 (upload_trace [true, false, true])) =
      UPLOAD_DELAY_MS :=
  ⟨by decide, C4_delay_after_successful_upload [true, false, true] 0 (by decide)⟩

/-- C4 counterexample.  When the first of two uploads fails, the two
upload calls are adjacent in the event trace with no sleep between them,
so the claimed minimum delay between every pair of consecutive upload
calls "regardless of outcome" does not hold. -/
theorem C4_counterexample :
    upload_trace [false, true] =
      [UpEvent.upload 1, UpEvent.upload 2, UpEvent.sleep UPLOAD_DELAY_MS] ∧
    minDelayBetweenUploads UPLOAD_DELAY_MS (upload_trace [false, true]) = false := by
  constructor
  · decide
  · decide

theorem uploadFold_spec :
    ∀ (l : List Bool) (st : LoadStats),
      uploadFold st l =
        ⟨st.files_found, st.files_uploaded + l.count true,
          st.files_failed + l.count false⟩ := by
  intro l
  induction l with
  | nil => intro st; simp [uploadFold]
  | cons ok rest ih =>
    intro st
    cases ok <;>
      simp [uploadFold, ih, List.count_cons] <;> omega

theorem count_true_add_count_false (l : List Bool) :
    l.count true + l.count false = l.length := by
  induction l with
  | nil => rfl
  | cons ok rest ih =>
    cases ok <;> simp [List.count_cons] <;> omega

theorem uploadsIn_uploadSteps (d : Nat) :
    ∀ (l : List Bool) (i : Nat), uploadsIn (uploadSteps d i l) = l.length := by
  intro l
  induction l with
  | nil => intro i; rfl
  | cons ok rest ih =>
    intro i
    cases ok <;>
      simp [uploadSteps, uploadsIn, List.countP_cons, List.countP_append] <;>
      simpa [uploadsIn] using ih (i + 1)

/-- C8.  A run over 5 candidate files with exactly one failed upload
completes all 5 upload calls (it does not abort) and reports
`files_found = 5`, `files_uploaded = 4`, `files_failed = 1`. -/
theorem C8_one_failure_does_not_abort
    (outcomes : List Bool) (hlen : outcomes.length = 5)
    (hfail : outcomes.count false = 1) :
    load_repository_stats outcomes = ⟨5, 4, 1⟩ ∧
    uploadsIn (upload_trace outcomes) = 5 := by
  have hcnt : outcomes.count true = 4 := by
    have := count_true_add_count_false outcomes
    omega
  constructor
  · rw [load_repository_stats, uploadFold_spec]
    simp [hlen, hcnt, hfail]
  · rw [upload_trace, uploadsIn_uploadSteps]
    exact hlen

/-- C8 witness: the scenario with file 3 failing. -/
theorem C8_witness :
    ([true, true, false, true, true] : List Bool).length = 5 ∧
    ([true, true, false, true, true] : List Bool).count false = 1 ∧
    load_repository_stats [true, true, false, true, true] = ⟨5, 4, 1⟩ ∧
    uploadsIn (upload_trace [true, true, false, true, true]) = 5 := by
  refine ⟨by decide, by decide, ?_⟩
  have h := C8_one_failure_does_not_abort [true, true, false, true, true]
    (by decide) (by decide)
  exact h

end UploadRepo
